import Mathlib

/-!
Shallow embedding of the libv vector library, from the two source headers
`include/vec.hpp` (the generic `v::vec<T, N>`) and `include/vec3.hpp`
(the specialized `v::vec3<T>`).

Only constructs of the source with defined behaviour are embedded.  A
substantial part of the library is ill-formed at every instantiation and
therefore has no behaviour to model:

* the generic reductions `vec::dot`, `magnitude2`, `sum`, `prod`, `min`,
  `max` (vec.hpp:75-116) and the specialized `vec3::min`, `vec3::max`
  (vec3.hpp:129-135) iterate with `p.first()`, `p.last()` (once
  `p.second()`), which are not members of `std::array`; consequently
  `vec::mean`, `vec::magnitude` and `vec::normalize`, which call them,
  never compile either;

* every free comparison operator of both headers (vec.hpp:215-244,
  vec3.hpp:246-275) reads the private member `p` of its operands, and
  neither class declares a friend;

* `vec::cross` (vec.hpp:81-87) returns a braced-init `vec` through a
  `const` reference return type, but `vec` is not an aggregate (private
  member) and has no 3-argument constructor; `vec3::cross`
  (vec3.hpp:105-111) does compile, but returns a `const vec3&` bound to a
  temporary that is destroyed when the return statement ends, so callers
  receive a dangling reference;

* both free `dot` templates (vec.hpp:178-181, vec3.hpp:209-212) declare a
  vector return type while returning the scalar member `dot(b)`, with no
  converting constructor in either class.

None of those functions is embedded here.  What is embedded, faithfully
from the source: the specialized type's constructor, element access
(unchecked and bounds-checked), named getters and setters, `sum`, `prod`,
`dot`, `magnitude2`, `magnitude`, `mean`, the value `vec3::cross`
constructs (the temporary its return statement materializes), `normalize`,
and the compound-assignment and free arithmetic operators of both types —
all of which compile — together with `lexLt`, the
`std::lexicographical_compare` algorithm that `std::array::operator<`
performs and that the ill-formed comparison operators delegate to.

Further modelling conventions.

* Unchecked positional access `operator[]` is modelled with the in-range
  index type `Fin N`, since out-of-range unchecked access is undefined
  behaviour; the bounds-checked `at` of `vec3` is an `Except String`
  computation whose error value carries the string the source passes to
  `std::out_of_range`.

* Const member functions and by-value parameters never write to their
  operands, so they are modelled as pure functions; the compound-assignment
  operators, which do mutate the receiver, are modelled as functions from
  the old receiver state to the new one, and each free operator is the
  corresponding compound operator applied to the by-value copy of its left
  operand, exactly as in the source.

* `magnitude` calls `std::sqrt`; the square-root operation of the element
  type is taken as an explicit function parameter.

* C++ division of signed 64-bit integers truncates toward zero, which is
  `Int.tdiv`.
-/

namespace v

/-- `std::lexicographical_compare` on two element sequences using
`operator<`, the algorithm `std::array::operator<` performs: scan the two
ranges in lockstep; the first position where one element is strictly below
the other decides; if the common prefix is exhausted, the shorter range is
the smaller one. -/
def lexLt {T : Type} [LT T] [DecidableRel ((· < ·) : T → T → Prop)] :
    List T → List T → Bool
  | [], [] => false
  | [], _ :: _ => true
  | _ :: _, [] => false
  | a :: as, b :: bs => if a < b then true else if b < a then false else lexLt as bs

/-- `v::vec3<T>` (vec3.hpp:51-201): a class holding `std::array<T, 3> p`,
with slots `p[0]`, `p[1]`, `p[2]`, built by the three-argument constructor
`vec3(x, y, z)`. -/
structure vec3 (T : Type) where
  p0 : T
  p1 : T
  p2 : T
deriving Repr, DecidableEq

namespace vec3

variable {T : Type}

/-- `operator[](n)` (vec3.hpp:182-188): unchecked positional access `p[n]`;
modelled at in-range indices only, since out-of-range unchecked access is
undefined behaviour. -/
def get (v : vec3 T) : Fin 3 → T
  | ⟨0, _⟩ => v.p0
  | ⟨1, _⟩ => v.p1
  | ⟨2, _⟩ => v.p2

/-- `at(n)` (vec3.hpp:190-200): bounds-checked access; when `n >= 3` it
calls `impl::throw_out_of_range("v::vec3::at")` (vec3.hpp:41-48), which
throws `std::out_of_range` carrying that identifier, otherwise it returns
`p[n]`. -/
def «at» (v : vec3 T) (n : Nat) : Except String T :=
  if h : 3 ≤ n then Except.error "v::vec3::at"
  else Except.ok (v.get ⟨n, by omega⟩)

/-- State-passing form of `at`: the body of `at` only reads the member
array (a comparison and a load) and contains no store, so the receiver
state after the call is the receiver state before it, also on the
throwing path. -/
def atSt (v : vec3 T) (n : Nat) : Except String T × vec3 T :=
  (v.«at» n, v)

/-- Getter `x()` (vec3.hpp:81-87): returns `p[0]`. -/
def x (v : vec3 T) : T := v.p0

/-- Getter `y()`: returns `p[1]`. -/
def y (v : vec3 T) : T := v.p1

/-- Getter `z()`: returns `p[2]`. -/
def z (v : vec3 T) : T := v.p2

/-- Setter `x(v)` (vec3.hpp:89): assigns `p[0] = v`, leaving `p[1]`, `p[2]`
untouched. -/
def setX (v : vec3 T) (w : T) : vec3 T := { v with p0 := w }

/-- Setter `y(v)` (vec3.hpp:90): assigns `p[1] = v`. -/
def setY (v : vec3 T) (w : T) : vec3 T := { v with p1 := w }

/-- Setter `z(v)` (vec3.hpp:91): assigns `p[2] = v`. -/
def setZ (v : vec3 T) (w : T) : vec3 T := { v with p2 := w }

/-- `sum()` (vec3.hpp:121-123): `p[0] + p[1] + p[2]`. -/
def sum [Add T] (v : vec3 T) : T := v.p0 + v.p1 + v.p2

/-- `prod()` (vec3.hpp:125-127): `p[0] * p[1] * p[2]`. -/
def prod [Mul T] (v : vec3 T) : T := v.p0 * v.p1 * v.p2

/-- `dot(o)` (vec3.hpp:101-103): `(p[0]*o.p[0]) + (p[1]*o.p[1]) + (p[2]*o.p[2])`. -/
def dot [Add T] [Mul T] (v o : vec3 T) : T :=
  (v.p0 * o.p0) + (v.p1 * o.p1) + (v.p2 * o.p2)

/-- `magnitude2()` (vec3.hpp:113-115): `(p[0]*p[0]) + (p[1]*p[1]) + (p[2]*p[2])`. -/
def magnitude2 [Add T] [Mul T] (v : vec3 T) : T :=
  (v.p0 * v.p0) + (v.p1 * v.p1) + (v.p2 * v.p2)

/-- `magnitude()` (vec3.hpp:117-119): `std::sqrt(magnitude2())`, with the
element type's square root passed explicitly. -/
def magnitude [Add T] [Mul T] (sqrt : T → T) (v : vec3 T) : T :=
  sqrt v.magnitude2

/-- The value `cross(o)` (vec3.hpp:105-111) constructs — the temporary its
return statement materializes from
`(p[1]*o.p[2] - p[2]*o.p[1], p[2]*o.p[0] - p[0]*o.p[2], p[0]*o.p[1] - p[1]*o.p[0])`.
The source's return type is `const vec3&`, so the caller is handed a
reference to this temporary that dangles as soon as the return statement
ends; the temporary itself, modelled here, is the only vector value the
body ever builds. -/
def cross [Mul T] [Sub T] (v o : vec3 T) : vec3 T :=
  ⟨(v.p1 * o.p2) - (v.p2 * o.p1),
   (v.p2 * o.p0) - (v.p0 * o.p2),
   (v.p0 * o.p1) - (v.p1 * o.p0)⟩

/-- `mean()` of `vec3<int64_t>` (vec3.hpp:97-99): `sum() / 3` with both
operands `int64_t`, plain signed division truncating toward zero. -/
def meanInt64 (v : vec3 Int) : Int := Int.tdiv v.sum 3

/-- `operator+=(rhs)` (vec3.hpp:145-150): slot-wise `p[i] += rhs.p[i]`,
returning the new receiver state. -/
def addAssign [Add T] (v rhs : vec3 T) : vec3 T :=
  ⟨v.p0 + rhs.p0, v.p1 + rhs.p1, v.p2 + rhs.p2⟩

/-- `operator-=(rhs)` (vec3.hpp:138-143). -/
def subAssign [Sub T] (v rhs : vec3 T) : vec3 T :=
  ⟨v.p0 - rhs.p0, v.p1 - rhs.p1, v.p2 - rhs.p2⟩

/-- `operator*=(rhs)` vector-vector (vec3.hpp:152-157). -/
def mulAssign [Mul T] (v rhs : vec3 T) : vec3 T :=
  ⟨v.p0 * rhs.p0, v.p1 * rhs.p1, v.p2 * rhs.p2⟩

/-- `operator/=(rhs)` vector-vector (vec3.hpp:159-164). -/
def divAssign [Div T] (v rhs : vec3 T) : vec3 T :=
  ⟨v.p0 / rhs.p0, v.p1 / rhs.p1, v.p2 / rhs.p2⟩

/-- `operator*=(v)` vector-scalar (vec3.hpp:167-172). -/
def mulScalarAssign [Mul T] (v : vec3 T) (s : T) : vec3 T :=
  ⟨v.p0 * s, v.p1 * s, v.p2 * s⟩

/-- `operator/=(v)` vector-scalar (vec3.hpp:174-179). -/
def divScalarAssign [Div T] (v : vec3 T) (s : T) : vec3 T :=
  ⟨v.p0 / s, v.p1 / s, v.p2 / s⟩

/-- `normalize()` (vec3.hpp:93-95): `*this /= magnitude()`, the divisor
being the magnitude computed from the pre-division state; there is no
special case for a zero magnitude. -/
def normalize [Add T] [Mul T] [Div T] (sqrt : T → T) (v : vec3 T) : vec3 T :=
  v.divScalarAssign (v.magnitude sqrt)

/-- Free `operator+` (vec3.hpp:215-218): `lhs += rhs` on the by-value copy
of the left operand. -/
def addF [Add T] (lhs rhs : vec3 T) : vec3 T := lhs.addAssign rhs

/-- Free `operator-` (vec3.hpp:220-223). -/
def subF [Sub T] (lhs rhs : vec3 T) : vec3 T := lhs.subAssign rhs

/-- Free `operator*` vector-vector (vec3.hpp:225-228). -/
def mulF [Mul T] (lhs rhs : vec3 T) : vec3 T := lhs.mulAssign rhs

/-- Free `operator/` vector-vector (vec3.hpp:230-233). -/
def divF [Div T] (lhs rhs : vec3 T) : vec3 T := lhs.divAssign rhs

/-- Free `operator*` vector-scalar (vec3.hpp:235-238). -/
def mulScalarF [Mul T] (lhs : vec3 T) (rhs : T) : vec3 T := lhs.mulScalarAssign rhs

/-- Free `operator/` vector-scalar (vec3.hpp:240-243). -/
def divScalarF [Div T] (lhs : vec3 T) (rhs : T) : vec3 T := lhs.divScalarAssign rhs

end vec3

/-- `v::vec<T, N>` (vec.hpp:42-170): a class holding `std::array<T, N> p`,
modelled as the element sequence of the array, of length `N`.  Of its
operations, only element access and the compound-assignment and free
arithmetic operators compile (see the header comment); they alone are
embedded below. -/
structure vec (T : Type) (N : Nat) where
  p : List T
  hp : p.length = N

namespace vec

variable {T : Type} {N : Nat}

/-- `operator[](n)` (vec.hpp:163-169): unchecked positional access `p[n]`;
modelled at in-range indices only, since out-of-range unchecked access is
undefined behaviour. -/
def get (v : vec T N) (i : Fin N) : T :=
  v.p.get (Fin.cast v.hp.symm i)

/-- `operator+=(rhs)` (vec.hpp:119-124): elementwise `p[i] += rhs.p[i]`,
returning the new receiver state. -/
def addAssign [Add T] (v rhs : vec T N) : vec T N :=
  ⟨List.zipWith (· + ·) v.p rhs.p, by
    rw [List.length_zipWith, v.hp, rhs.hp, Nat.min_self]⟩

/-- `operator-=(rhs)` (vec.hpp:126-131). -/
def subAssign [Sub T] (v rhs : vec T N) : vec T N :=
  ⟨List.zipWith (· - ·) v.p rhs.p, by
    rw [List.length_zipWith, v.hp, rhs.hp, Nat.min_self]⟩

/-- `operator*=(rhs)` vector-vector (vec.hpp:133-138). -/
def mulAssign [Mul T] (v rhs : vec T N) : vec T N :=
  ⟨List.zipWith (· * ·) v.p rhs.p, by
    rw [List.length_zipWith, v.hp, rhs.hp, Nat.min_self]⟩

/-- `operator/=(rhs)` vector-vector (vec.hpp:140-145). -/
def divAssign [Div T] (v rhs : vec T N) : vec T N :=
  ⟨List.zipWith (· / ·) v.p rhs.p, by
    rw [List.length_zipWith, v.hp, rhs.hp, Nat.min_self]⟩

/-- `operator*=(v)` vector-scalar (vec.hpp:148-153). -/
def mulScalarAssign [Mul T] (v : vec T N) (s : T) : vec T N :=
  ⟨v.p.map (· * s), by rw [List.length_map, v.hp]⟩

/-- `operator/=(v)` vector-scalar (vec.hpp:155-160). -/
def divScalarAssign [Div T] (v : vec T N) (s : T) : vec T N :=
  ⟨v.p.map (· / s), by rw [List.length_map, v.hp]⟩

/-- Free `operator+` (vec.hpp:184-187): `lhs += rhs` on the by-value copy
of the left operand. -/
def addF [Add T] (lhs rhs : vec T N) : vec T N := lhs.addAssign rhs

/-- Free `operator-` (vec.hpp:189-192). -/
def subF [Sub T] (lhs rhs : vec T N) : vec T N := lhs.subAssign rhs

/-- Free `operator*` vector-vector (vec.hpp:194-197). -/
def mulF [Mul T] (lhs rhs : vec T N) : vec T N := lhs.mulAssign rhs

/-- Free `operator/` vector-vector (vec.hpp:199-202). -/
def divF [Div T] (lhs rhs : vec T N) : vec T N := lhs.divAssign rhs

/-- Free `operator*` vector-scalar (vec.hpp:204-207). -/
def mulScalarF [Mul T] (lhs : vec T N) (rhs : T) : vec T N := lhs.mulScalarAssign rhs

/-- Free `operator/` vector-scalar (vec.hpp:209-212). -/
def divScalarF [Div T] (lhs : vec T N) (rhs : T) : vec T N := lhs.divScalarAssign rhs

end vec

end v

/-- C2: for every index `n`, `vec3<T>::at(n)` signals an out-of-range error
exactly when `n >= 3`, the error carrying the identifier `"v::vec3::at"`,
and for every `n < 3` it returns the same element as `operator[](n)`
(modelled by `vec3.get`).  In this development `at` is indeed the only
operation of either type returning an `Except`: every other modelled
operation is a total function. -/
theorem C2_at_checked_access : ∀ (T : Type) (w : v.vec3 T) (n : Nat),
    ((∃ s, w.«at» n = Except.error s) ↔ 3 ≤ n) ∧
    (3 ≤ n → w.«at» n = Except.error "v::vec3::at") ∧
    (∀ h : n < 3, w.«at» n = Except.ok (w.get ⟨n, h⟩)) := by
  intro T w n
  by_cases h : 3 ≤ n
  · refine ⟨⟨fun _ => h, fun _ => ⟨"v::vec3::at", by simp [v.vec3.«at», h]⟩⟩,
      fun _ => by simp [v.vec3.«at», h], fun hlt => absurd hlt (by omega)⟩
  · refine ⟨⟨fun ⟨s, hs⟩ => ?_, fun hc => absurd hc h⟩, fun hc => absurd hc h,
      fun hlt => by simp [v.vec3.«at», h]⟩
    simp [v.vec3.«at», h] at hs

theorem C2_at_checked_access_witness :
    (v.vec3.mk (5 : Int) 6 7).«at» 1 = Except.ok 6 ∧
    (v.vec3.mk (5 : Int) 6 7).«at» 3 = Except.error "v::vec3::at" := by
  constructor
  · have h := (C2_at_checked_access Int (v.vec3.mk 5 6 7) 1).2.2 (by omega)
    simpa [v.vec3.get] using h
  · exact (C2_at_checked_access Int (v.vec3.mk 5 6 7) 3).2.1 (by omega)

/-- C3: the only vector value `vec3::cross` ever builds — the temporary its
return statement materializes — has exactly the components
`(a1*b2 - a2*b1, a2*b0 - a0*b2, a0*b1 - a1*b0)`, for every pair of
operands over any element type, and concretely
`(1,0,0) x (0,1,0) = (0,0,1)` over `ℚ` (the exact values of the double
scenario); the body reads its operands and writes nothing.  But no caller
can receive this vector: the source returns it as a `const vec3&` bound to
the temporary, which is destroyed when the return statement ends, and the
generic `vec::cross` is ill-formed outright — so "returns the vector" is a
code bug, not program behaviour. -/
theorem C3_cross_product :
    (∀ (T : Type) [Mul T] [Sub T] (a b : v.vec3 T),
      a.cross b = v.vec3.mk ((a.p1 * b.p2) - (a.p2 * b.p1))
        ((a.p2 * b.p0) - (a.p0 * b.p2)) ((a.p0 * b.p1) - (a.p1 * b.p0))) ∧
    (v.vec3.mk (1 : ℚ) 0 0).cross (v.vec3.mk 0 1 0) = v.vec3.mk 0 0 1 := by
  refine ⟨fun T _ _ a b => rfl, ?_⟩
  simp [v.vec3.cross]

/-- C9: each named setter of `vec3` writes its own slot and only that slot,
and the named getters read back accordingly: after `x(w)` the getter `x()`
returns `w` while `y()` and `z()` return their prior values, and likewise
for `y(w)` and `z(w)`; positional reads through `operator[]` agree. -/
theorem C9_named_setters_frame : ∀ (T : Type) (w : v.vec3 T) (u : T),
    ((w.setX u).x = u ∧ (w.setX u).y = w.y ∧ (w.setX u).z = w.z ∧
      (w.setX u).get 0 = u ∧ (w.setX u).get 1 = w.get 1 ∧ (w.setX u).get 2 = w.get 2) ∧
    ((w.setY u).y = u ∧ (w.setY u).x = w.x ∧ (w.setY u).z = w.z ∧
      (w.setY u).get 1 = u ∧ (w.setY u).get 0 = w.get 0 ∧ (w.setY u).get 2 = w.get 2) ∧
    ((w.setZ u).z = u ∧ (w.setZ u).x = w.x ∧ (w.setZ u).y = w.y ∧
      (w.setZ u).get 2 = u ∧ (w.setZ u).get 0 = w.get 0 ∧ (w.setZ u).get 1 = w.get 1) := by
  intro T w u
  exact ⟨⟨rfl, rfl, rfl, rfl, rfl, rfl⟩, ⟨rfl, rfl, rfl, rfl, rfl, rfl⟩,
    ⟨rfl, rfl, rfl, rfl, rfl, rfl⟩⟩

/-- C10: a failing call `at(n)` with `n >= 3` signals the out-of-range
error and leaves every element of the receiver exactly as it was: in the
state-passing form of `at`, the returned state equals the input state
(the body of `at` contains no store to the member array). -/
theorem C10_at_failure_no_mutation : ∀ (T : Type) (w : v.vec3 T) (n : Nat), 3 ≤ n →
    (w.atSt n).1 = Except.error "v::vec3::at" ∧ (w.atSt n).2 = w := by
  intro T w n h
  exact ⟨by simp [v.vec3.atSt, v.vec3.«at», h], rfl⟩

theorem C10_at_failure_no_mutation_witness :
    ((v.vec3.mk (1 : Int) 2 3).atSt 5).1 = Except.error "v::vec3::at" ∧
    ((v.vec3.mk (1 : Int) 2 3).atSt 5).2 = v.vec3.mk 1 2 3 :=
  C10_at_failure_no_mutation Int (v.vec3.mk 1 2 3) 5 (by omega)

/-- C4: only the specialized type has a compiling `prod` to check.  It does
satisfy the seeded-fold policy: `vec3::prod` equals the left-to-right fold
of `*` over the remaining two slots seeded with the first slot — stated
over any `Mul` type, with no `One` required — and
`vec3<int>(1,2,3).prod() == 6`.  The generic `vec::prod` (vec.hpp:104-108),
which the claim also covers, calls the nonexistent `std::array` members
`first()` / `last()` and is ill-formed at every instantiation: a code bug,
the claim's "for every vector" has no generic behaviour to hold of. -/
theorem C4_prod_seeded_with_first :
    (∀ (T : Type) [Mul T] (w : v.vec3 T),
      w.prod = List.foldl (· * ·) w.p0 [w.p1, w.p2]) ∧
    (v.vec3.mk (1 : Int) 2 3).prod = 6 := by
  exact ⟨fun T _ w => rfl, by decide⟩

/-- C5: only the specialized type has a compiling `normalize` to check.  It
behaves as claimed: every element of the result is the old element divided
by the value `magnitude()` had before the division, with no zero-magnitude
guard — stated in general and again under the explicit hypothesis that the
magnitude is zero.  The generic `vec::normalize` (vec.hpp:67-69), which
the claim also covers, calls `magnitude()` and thereby `magnitude2()`
(vec.hpp:89-93), which iterates with the nonexistent `std::array` members
`first()` / `last()`: ill-formed at every instantiation, a code bug. -/
theorem C5_normalize_unguarded :
    (∀ (T : Type) [Add T] [Mul T] [Div T] (sqrt : T → T) (w : v.vec3 T) (i : Fin 3),
      (w.normalize sqrt).get i = w.get i / w.magnitude sqrt) ∧
    (∀ (T : Type) [Add T] [Mul T] [Zero T] [Div T] (sqrt : T → T) (w : v.vec3 T)
      (i : Fin 3), w.magnitude sqrt = 0 →
      (w.normalize sqrt).get i = w.get i / 0) := by
  constructor
  · intro T _ _ _ sqrt w i
    rcases i with ⟨iv, hi⟩
    interval_cases iv <;> rfl
  · intro T _ _ _ _ sqrt w i h
    rw [← h]
    rcases i with ⟨iv, hi⟩
    interval_cases iv <;> rfl

theorem C5_normalize_unguarded_witness :
    v.vec3.magnitude (fun t => t) (v.vec3.mk (0 : Int) 0 0) = 0 ∧
    ((v.vec3.mk (0 : Int) 0 0).normalize (fun t => t)).get 0 = 0 / 0 :=
  ⟨by decide, C5_normalize_unguarded.2 Int (fun t => t) (v.vec3.mk 0 0 0) 0 (by decide)⟩

/-- C7: each free operator `+`, `-`, `*`, `/` — vector-vector and
vector-scalar — returns a new vector whose element `i` is the elementwise
combination of its operands' elements `i`, for both the generic and the
specialized type.  Each free operator applies the compound-assignment
operator to the by-value copy of its left operand; both are modelled as
pure functions of the operand states (no modelled operation writes to its
operands), so the operands keep the element values they had before the
call. -/
theorem C7_free_operators_elementwise :
    (∀ (T : Type) [Add T] [Sub T] [Mul T] [Div T] (n : Nat) (a b : v.vec T n)
      (s : T) (i : Fin n),
      (a.addF b).get i = a.get i + b.get i ∧
      (a.subF b).get i = a.get i - b.get i ∧
      (a.mulF b).get i = a.get i * b.get i ∧
      (a.divF b).get i = a.get i / b.get i ∧
      (a.mulScalarF s).get i = a.get i * s ∧
      (a.divScalarF s).get i = a.get i / s) ∧
    (∀ (T : Type) [Add T] [Sub T] [Mul T] [Div T] (a b : v.vec3 T) (s : T) (i : Fin 3),
      (a.addF b).get i = a.get i + b.get i ∧
      (a.subF b).get i = a.get i - b.get i ∧
      (a.mulF b).get i = a.get i * b.get i ∧
      (a.divF b).get i = a.get i / b.get i ∧
      (a.mulScalarF s).get i = a.get i * s ∧
      (a.divScalarF s).get i = a.get i / s) := by
  constructor
  · intro T _ _ _ _ n a b s i
    have hi1 : (i : Nat) < a.p.length := by rw [a.hp]; exact i.isLt
    have hi2 : (i : Nat) < b.p.length := by rw [b.hp]; exact i.isLt
    refine ⟨?_, ?_, ?_, ?_, ?_, ?_⟩ <;>
      simp [v.vec.addF, v.vec.subF, v.vec.mulF, v.vec.divF, v.vec.mulScalarF,
        v.vec.divScalarF, v.vec.addAssign, v.vec.subAssign, v.vec.mulAssign,
        v.vec.divAssign, v.vec.mulScalarAssign, v.vec.divScalarAssign,
        v.vec.get, List.getElem_zipWith, List.getElem_map]
  · intro T _ _ _ _ a b s i
    rcases i with ⟨iv, hi⟩
    interval_cases iv <;> exact ⟨rfl, rfl, rfl, rfl, rfl, rfl⟩

/-- C6: the program cannot perform any of the claimed comparisons — every
free comparison operator of both headers reads the private member `p` with
no friend declaration, so every instantiation of `==`, `!=`, `<`, `>`,
`<=`, `>=` is ill-formed: a code bug.  What can be verified is the one
real algorithm in the claim's path, the `std::lexicographical_compare`
scan that `std::array::operator<` performs and that the operator bodies
delegate to: `lexLt` decides exactly lexicographic order on the element
sequences (element 0 most significant), stated here against Mathlib's
`List.Lex` over the strict order. -/
theorem C6_lexicographic_compare_algorithm :
    ∀ (T : Type) [LinearOrder T] (l1 l2 : List T),
      v.lexLt l1 l2 = true ↔ List.Lex (· < ·) l1 l2 := by
  intro T _ l1
  induction l1 with
  | nil =>
    intro l2
    cases l2 with
    | nil =>
      simp only [v.lexLt, Bool.false_eq_true, false_iff]
      exact List.Lex.not_nil_right _ _
    | cons b bs =>
      simp only [v.lexLt, true_iff]
      exact List.Lex.nil
  | cons a as ih =>
    intro l2
    cases l2 with
    | nil =>
      simp only [v.lexLt, Bool.false_eq_true, false_iff]
      exact List.Lex.not_nil_right _ _
    | cons b bs =>
      by_cases h1 : a < b
      · simp only [v.lexLt, h1, if_true, true_iff]
        exact List.Lex.rel h1
      · by_cases h2 : b < a
        · simp only [v.lexLt, h1, h2, if_false, if_true, Bool.false_eq_true, false_iff]
          intro hlex
          cases hlex with
          | rel h => exact h1 h
          | cons h => exact lt_irrefl _ h2
        · have hab : a = b := le_antisymm (not_lt.mp h2) (not_lt.mp h1)
          subst hab
          simp only [v.lexLt, h1, h2, if_false]
          rw [List.Lex.cons_iff]
          exact ih bs

/-- C1: the cross-validation property has no generic side to validate
against — every generic reduction (`vec::dot`, `magnitude2`, `sum`,
`prod`, `min`, `max`, vec.hpp:75-116, and with them `mean`, `magnitude`,
`normalize`) iterates with the nonexistent `std::array` members
`first()` / `last()` / `second()` and is ill-formed at every
instantiation, as are `vec3::min` / `vec3::max` (vec3.hpp:129-135): a
code bug.  This theorem evaluates the specialized operations that do
compile at the spec's own scenario `(1, 2, 3)` over `int`: `sum` 6,
`prod` 6, `dot` with itself 14, `magnitude2` 14, `mean` 2 — results the
generic instantiation can never reproduce, since it does not compile. -/
theorem C1_specialized_values_generic_ill_formed :
    (v.vec3.mk (1 : Int) 2 3).sum = 6 ∧
    (v.vec3.mk (1 : Int) 2 3).prod = 6 ∧
    (v.vec3.mk (1 : Int) 2 3).dot (v.vec3.mk 1 2 3) = 14 ∧
    (v.vec3.mk (1 : Int) 2 3).magnitude2 = 14 ∧
    v.vec3.meanInt64 (v.vec3.mk (1 : Int) 2 3) = 2 := by
  decide

/-- C8: evaluation of the specialized member `dot`, the value the free
`dot` was meant to forward, at the failing input: `(1,2,3) . (4,5,6) = 32`.
The free function itself (vec.hpp:178-181, vec3.hpp:209-212) cannot
deliver it: both templates declare a vector return type (`vec<T, N>`,
`vec3<T>`) while their body returns the scalar `a.dot(b)`, and neither
class has a constructor from a scalar, so every call is ill-formed; the
generic member `vec::dot` (vec.hpp:75-79) is ill-formed as well
(nonexistent `p.first()` / `p.last()`). -/
theorem C8_dot_member_evaluation :
    (v.vec3.mk (1 : Int) 2 3).dot (v.vec3.mk 4 5 6) = 32 := by
  decide
